import Mathlib

/-! Dataset lifecycle manager of the server (`codemp/server/sv_database.cpp`).

A shallow embedding of `TraceCallback`, `SV_DB_Init`, `SV_DB_Save` and `SV_DB_Get`.

* The four global handles and the function-local static `lastLoaded` are fields of `State`.
  A handle is the address it holds, a natural number, and `NULL` is `0`.
* The contents of the two database files and of the two in-memory databases are fields of
  `State` too, so that the effect of a backup (a full copy) can be observed.
* Everything the embedded engine answers (result codes, the handles it writes, backup
  objects) is an argument of the function that asks for it: the theorems hold for every
  answer the engine may give.
* `Com_Printf` lines and the engine calls that matter are appended to `State.log`.
-/

namespace SvDatabase

/-! ## Data model -/

/-- An address held by a C pointer; `0` is the null pointer. -/
abbrev Ptr := Nat

/-- The null pointer. -/
def NULL : Ptr := 0

/-- Modelled from the spec: result code of the embedded engine for success
(`sqlite3.h` is not under src/; the function only compares result codes with it). -/
def SQLITE_OK : Int := 0

/-- Modelled from the spec: result code with which a full-copy step reports that the copy is
complete (`sqlite3.h` is not under src/). -/
def SQLITE_DONE : Int := 101

/-- Modelled from the spec: event kind of a statement event (`sqlite3.h` is not under src/). -/
def SQLITE_TRACE_STMT : Nat := 1

/-- Modelled from the spec: event kind of a profile event (`sqlite3.h` is not under src/). -/
def SQLITE_TRACE_PROFILE : Nat := 2

/-- The two database files, `ENHANCED_DB_FILENAME` and `ENTRANCED_DB_FILENAME`. -/
inductive DbFile where
  | enhanced
  | entranced
  deriving DecidableEq, Repr

/-- The contents of a store: rows of a key and a value, the newest first. -/
abbrev Content := List (Nat × Nat)

/-- What the subsystem lets the outside see: the lines it prints with `Com_Printf` and the
calls it makes into the engine's copy and trace interface. -/
inductive Event where
  /-- Line 57, "failed to initialize SQLite3 (code: %d)". -/
  | initFailed (rc : Int)
  /-- Lines 67 and 74, "successfully loaded F.". -/
  | loaded (f : DbFile)
  /-- Line 78, "failed to load either ... or ...!". -/
  | failedEither
  /-- Lines 92 to 151, "unable to load F into memory!". -/
  | unableToLoad (f : DbFile)
  /-- Lines 184 and 208, "saving F changes to disk...". -/
  | saving (f : DbFile)
  /-- Lines 201 and 225, "done (took %d milliseconds)."; the duration is not modelled. -/
  | saveDone (f : DbFile)
  /-- Lines 203 and 227, "WARNING: Failed to backup F! ...". -/
  | saveWarning (f : DbFile)
  /-- A call of `sqlite3_backup_init (dest, "main", src, "main")`. -/
  | backupInit (dest src : Ptr)
  /-- A call of `sqlite3_trace_v2 (db, mask, callback, NULL)`; `callback` tells whether
  `TraceCallback` was passed rather than `NULL`. -/
  | traceV2 (db : Ptr) (mask : Nat) (callback : Bool)
  deriving DecidableEq, Repr

/-- The process-wide state of the subsystem. -/
structure State where
  /-- Line 8, `static sqlite3 *enhancedDbDisk`. -/
  enhancedDbDisk : Ptr
  /-- Line 8, `static sqlite3 *enhancedDbMemory`. -/
  enhancedDbMemory : Ptr
  /-- Line 8, `static sqlite3 *entrancedDbDisk`. -/
  entrancedDbDisk : Ptr
  /-- Line 8, `static sqlite3 *entrancedDbMemory`. -/
  entrancedDbMemory : Ptr
  /-- Line 234, `static void *lastLoaded` of `SV_DB_Get`. -/
  lastLoaded : Ptr
  /-- The contents of the file `enhanced.db`. -/
  enhancedFile : Content
  /-- The contents of the file `entranced.db`. -/
  entrancedFile : Content
  /-- The contents of the in-memory database opened for `enhancedDbMemory`. -/
  enhancedMem : Content
  /-- The contents of the in-memory database opened for `entrancedDbMemory`. -/
  entrancedMem : Content
  /-- The printed lines and engine calls so far, the oldest first. -/
  log : List Event
  deriving DecidableEq, Repr

/-- The state of a process that has not yet called `SV_DB_Init`: every static pointer is
`NULL` (lines 8 and 234) and the two files hold what earlier runs left in them. -/
def boot (enhancedFile entrancedFile : Content) : State :=
  { enhancedDbDisk := NULL, enhancedDbMemory := NULL,
    entrancedDbDisk := NULL, entrancedDbMemory := NULL,
    lastLoaded := NULL,
    enhancedFile := enhancedFile, entrancedFile := entrancedFile,
    enhancedMem := [], entrancedMem := [],
    log := [] }

/-- Append one event to the log. -/
def State.emit (s : State) (e : Event) : State :=
  { s with log := s.log ++ [e] }

/-- The answer of `sqlite3_open_v2`: its result code and the handle it writes through its
second argument. -/
structure OpenResult where
  rc : Int
  db : Ptr
  deriving DecidableEq, Repr

/-- The answers of one backup: the object `sqlite3_backup_init` returns (`NULL` on failure),
the result code of `sqlite3_backup_step (backup, -1)` and that of `sqlite3_backup_finish`. -/
structure BackupResult where
  backup : Ptr
  stepRc : Int
  finishRc : Int
  deriving DecidableEq, Repr

/-- Modelled from the spec: the Copy Engine (`sqlite3_backup_init`, `_step`, `_finish`, not
under src/) "performs a full, blocking, all-or-nothing duplication of one store's contents
into another store": when the object was created, the step reported completion and the
finalisation succeeded, the destination holds the contents of the source; otherwise the
destination is as it was. -/
def BackupResult.copied (r : BackupResult) (src dest : Content) : Content :=
  if r.backup ≠ NULL ∧ r.stepRc = SQLITE_DONE ∧ r.finishRc = SQLITE_OK then src else dest

/-- All the engine answers during one run of `SV_DB_Init`, and the value of the cvar
`sv_traceSQL`. -/
structure InitEnv where
  /-- Line 54, `sqlite3_initialize ()`. -/
  initRc : Int
  /-- Line 64, opening `enhanced.db`. -/
  openEnhancedDisk : OpenResult
  /-- Line 71, opening `entranced.db`. -/
  openEntrancedDisk : OpenResult
  /-- Line 83, opening ":memory:" for enhanced. -/
  openEnhancedMemory : OpenResult
  /-- Lines 86 to 90, the copy of `enhanced.db` into memory. -/
  loadEnhanced : BackupResult
  /-- Line 121, opening ":memory:" for entranced. -/
  openEntrancedMemory : OpenResult
  /-- Lines 124 to 128, the copy of `entranced.db` into memory. -/
  loadEntranced : BackupResult
  /-- Line 159, `sv_traceSQL->integer`. -/
  traceSQL : Int
  deriving DecidableEq, Repr

/-! ## `TraceCallback` (lines 14 to 47) -/

/-- What `TraceCallback` prints. -/
inductive TraceLine where
  /-- Line 22, "Server: executing SQL: ". -/
  | executing
  /-- Lines 26, 28, 34 and 36, the separator line. -/
  | separator
  /-- Lines 27 and 35, the statement text. -/
  | text (sql : String)
  /-- Line 43, "Executed in %ums". -/
  | executedIn (ms : Nat)
  deriving DecidableEq, Repr

/-- Modelled from the spec: `Q_stricmpn (sql, "--", 2)` (not under src/) is zero exactly when
"the text begins with a comment marker". -/
def beginsWithComment (sql : String) : Bool :=
  match sql.toList with
  | a :: b :: _ => a == '-' && b == '-'
  | _ => false

/-- `TraceCallback`. `ptr` and `info` are the two pointers the engine passes; `sql` is the text
`info` points to when it is read as a string, `nanoseconds` the value it points to when it is
read as an `unsigned long long`, and `expanded` is what `sqlite3_expanded_sql` answers.
The result is the list of lines printed; the function itself always returns 0. -/
def TraceCallback (traceSQL : Int) (type : Nat) (ptr info : Ptr)
    (sql expanded : String) (nanoseconds : Nat) : List TraceLine :=
  if ptr = NULL ∨ info = NULL ∨ traceSQL = 0 then
    []
  else if type = SQLITE_TRACE_STMT then
    if beginsWithComment sql then
      [.executing, .separator, .text sql, .separator]
    else
      [.executing, .separator, .text expanded, .separator]
  else if type = SQLITE_TRACE_PROFILE then
    -- unsigned long long nanoseconds = *((unsigned long long *)info);
    let nanoseconds := nanoseconds % 2 ^ 64
    -- unsigned int ms = nanoseconds / 1000000;
    let ms := (nanoseconds / 1000000) % 2 ^ 32
    [.executedIn ms]
  else
    []

/-! ## `SV_DB_Init` (lines 49 to 179) -/

/-- Lines 158 to 178 of `SV_DB_Init`: register the trace callback on every handle that exists,
or clear it. -/
def registerTrace (env : InitEnv) (s : State) : State :=
  if env.traceSQL ≠ 0 then
    let s := if s.enhancedDbDisk ≠ NULL then
      s.emit (.traceV2 s.enhancedDbDisk (SQLITE_TRACE_STMT ||| SQLITE_TRACE_PROFILE) true) else s
    let s := if s.enhancedDbMemory ≠ NULL then
      s.emit (.traceV2 s.enhancedDbMemory (SQLITE_TRACE_STMT ||| SQLITE_TRACE_PROFILE) true) else s
    let s := if s.entrancedDbDisk ≠ NULL then
      s.emit (.traceV2 s.entrancedDbDisk (SQLITE_TRACE_STMT ||| SQLITE_TRACE_PROFILE) true) else s
    let s := if s.entrancedDbMemory ≠ NULL then
      s.emit (.traceV2 s.entrancedDbMemory (SQLITE_TRACE_STMT ||| SQLITE_TRACE_PROFILE) true) else s
    s
  else
    let s := if s.enhancedDbDisk ≠ NULL then s.emit (.traceV2 s.enhancedDbDisk 0 false) else s
    let s := if s.enhancedDbMemory ≠ NULL then s.emit (.traceV2 s.enhancedDbMemory 0 false) else s
    let s := if s.entrancedDbDisk ≠ NULL then s.emit (.traceV2 s.entrancedDbDisk 0 false) else s
    let s := if s.entrancedDbMemory ≠ NULL then s.emit (.traceV2 s.entrancedDbMemory 0 false) else s
    s

/-- Lines 92 to 95, 99 to 102, 106 to 109 and 113 to 116: the four identical failure branches
of the enhanced block. Each ends in `return`: nothing of `SV_DB_Init` runs after it. -/
def failEnhanced (s : State) : State :=
  { s.emit (.unableToLoad .enhanced) with enhancedDbDisk := NULL, enhancedDbMemory := NULL }

/-- Lines 130 to 133, 137 to 140, 144 to 147 and 151 to 154: the four identical failure
branches of the entranced block, each ending in `return`. -/
def failEntranced (s : State) : State :=
  { s.emit (.unableToLoad .entranced) with entrancedDbDisk := NULL, entrancedDbMemory := NULL }

/-- Lines 120 to 179 of `SV_DB_Init`: load entranced into memory, then register the trace
callback. -/
def loadEntrancedIntoMemory (env : InitEnv) (s : State) : State :=
  -- rc = sqlite3_open_v2(":memory:", &entrancedDbMemory, SQLITE_OPEN_READWRITE, NULL);
  -- the handle is written whether or not a disk handle exists; a new in-memory database is empty
  let rc := env.openEntrancedMemory.rc
  let s := { s with entrancedDbMemory := env.openEntrancedMemory.db, entrancedMem := [] }
  if s.entrancedDbDisk ≠ NULL then
    if rc = SQLITE_OK then
      let backup := env.loadEntranced.backup
      let s := s.emit (.backupInit s.entrancedDbMemory s.entrancedDbDisk)
      if backup ≠ NULL then
        let rc := env.loadEntranced.stepRc
        if rc = SQLITE_DONE then
          let rc := env.loadEntranced.finishRc
          if rc ≠ SQLITE_OK then
            failEntranced s
          else
            registerTrace env
              { s with entrancedMem := env.loadEntranced.copied s.entrancedFile s.entrancedMem }
        else
          failEntranced s
      else
        failEntranced s
    else
      failEntranced s
  else
    registerTrace env s

/-- Lines 82 to 179 of `SV_DB_Init`: load enhanced into memory, then go on with entranced. -/
def loadEnhancedIntoMemory (env : InitEnv) (s : State) : State :=
  -- rc = sqlite3_open_v2(":memory:", &enhancedDbMemory, SQLITE_OPEN_READWRITE, NULL);
  -- the handle is written whether or not a disk handle exists; a new in-memory database is empty
  let rc := env.openEnhancedMemory.rc
  let s := { s with enhancedDbMemory := env.openEnhancedMemory.db, enhancedMem := [] }
  if s.enhancedDbDisk ≠ NULL then
    if rc = SQLITE_OK then
      let backup := env.loadEnhanced.backup
      let s := s.emit (.backupInit s.enhancedDbMemory s.enhancedDbDisk)
      if backup ≠ NULL then
        let rc := env.loadEnhanced.stepRc
        if rc = SQLITE_DONE then
          let rc := env.loadEnhanced.finishRc
          if rc ≠ SQLITE_OK then
            failEnhanced s
          else
            loadEntrancedIntoMemory env
              { s with enhancedMem := env.loadEnhanced.copied s.enhancedFile s.enhancedMem }
        else
          failEnhanced s
      else
        failEnhanced s
    else
      failEnhanced s
  else
    loadEntrancedIntoMemory env s

/-- `SV_DB_Init`. The three `sqlite3_config` calls of lines 50 to 52 change nothing that is
modelled. -/
def SV_DB_Init (env : InitEnv) (s : State) : State :=
  let rc := env.initRc
  if rc ≠ SQLITE_OK then
    s.emit (.initFailed rc)
  else
    let gotOne := false
    -- try to load enhanced
    let rc := env.openEnhancedDisk.rc
    let s := { s with enhancedDbDisk := env.openEnhancedDisk.db }
    let gotOne := if rc = SQLITE_OK then true else gotOne
    let s := if rc = SQLITE_OK then s.emit (.loaded .enhanced) else s
    -- try to load entranced
    let rc := env.openEntrancedDisk.rc
    let s := { s with entrancedDbDisk := env.openEntrancedDisk.db }
    let gotOne := if rc = SQLITE_OK then true else gotOne
    let s := if rc = SQLITE_OK then s.emit (.loaded .entranced) else s
    if !gotOne then
      s.emit .failedEither
    else
      loadEnhancedIntoMemory env s

/-! ## `SV_DB_Save` (lines 181 to 229) -/

/-- `SV_DB_Save`. `r1` holds the engine answers for the backup of enhanced (lines 188 to
192), `r2` those for the backup of entranced (lines 212 to 216). `Sys_Milliseconds` only
feeds the printed duration, which is not modelled. -/
def SV_DB_Save (r1 r2 : BackupResult) (s : State) : State :=
  let s :=
    if s.enhancedDbMemory ≠ NULL ∧ s.enhancedDbDisk ≠ NULL then
      let s := s.emit (.saving .enhanced)
      let success := false
      let backup := r1.backup
      let s := s.emit (.backupInit s.enhancedDbDisk s.enhancedDbMemory)
      let success :=
        if backup ≠ NULL then
          let rc := r1.stepRc
          if rc = SQLITE_DONE then
            let rc := r1.finishRc
            if rc = SQLITE_OK then true else success
          else success
        else success
      let s := { s with enhancedFile := r1.copied s.enhancedMem s.enhancedFile }
      if success then s.emit (.saveDone .enhanced) else s.emit (.saveWarning .enhanced)
    else s
  let s :=
    if s.entrancedDbMemory ≠ NULL ∧ s.entrancedDbDisk ≠ NULL then
      let s := s.emit (.saving .entranced)
      let success := false
      let backup := r2.backup
      let s := s.emit (.backupInit s.entrancedDbDisk s.entrancedDbMemory)
      let success :=
        if backup ≠ NULL then
          let rc := r2.stepRc
          if rc = SQLITE_DONE then
            let rc := r2.finishRc
            if rc = SQLITE_OK then true else success
          else success
        else success
      let s := { s with entrancedFile := r2.copied s.entrancedMem s.entrancedFile }
      if success then s.emit (.saveDone .entranced) else s.emit (.saveWarning .entranced)
    else s
  s

/-! ## `SV_DB_Get` (lines 233 to 251) -/

/-- Modelled from the spec: the case folding of the "case-insensitive" test; the helper
`Q_stristr` (not under src/) compares characters after folding ASCII letters to one case. -/
def foldCase (c : Char) : Char := c.toUpper

/-- Modelled from the spec: the comparison `Q_stristr` (not under src/) makes at one
position: whether `find` stands at the very start of `s`, letters compared without case. -/
def startsWithNoCase : List Char → List Char → Bool
  | _, [] => true
  | [], _ :: _ => false
  | c :: cs, f :: fs => foldCase c == foldCase f && startsWithNoCase cs fs

/-- Modelled from the spec: `Q_stristr (s, find)` (not under src/), the "deterministic,
case-insensitive substring test": the offset of the first occurrence of `find` in `s`, or
`none` where the C function returns `NULL`. -/
def Q_stristr : List Char → List Char → Option Nat
  | [], find => if startsWithNoCase [] find then some 0 else none
  | c :: cs, find =>
    if startsWithNoCase (c :: cs) find then some 0
    else (Q_stristr cs find).map (· + 1)

/-- Modelled from the spec: the macro `VALIDSTRING (a)` (not under src/): the string is
present ("absent" is the null pointer, `none`) and not empty. -/
def VALIDSTRING (a : Option String) : Bool :=
  match a with
  | none => false
  | some str => !str.toList.isEmpty

/-- The literal of line 237. -/
def marker : String := "base_entranced"

/-- The condition of line 237,
`VALIDSTRING (gameversion) && Q_stristr (gameversion, "base_entranced")`. -/
def selectsEntranced (gameversion : Option String) : Bool :=
  VALIDSTRING gameversion &&
    (match gameversion with
     | none => false
     | some str => (Q_stristr str.toList marker.toList).isSome)

/-- What one call of `SV_DB_Get` gives back. -/
structure GetResult where
  /-- The `qboolean` returned. -/
  changed : Bool
  /-- The handle written through `ptr`. -/
  ptr : Ptr
  /-- The state after the call. -/
  state : State
  deriving DecidableEq, Repr

/-- `SV_DB_Get`. `gameversion` is what `Cvar_VariableString ("gameversion")` answers; `r1` and
`r2` are the engine answers for the two backups of a `SV_DB_Save` at line 244, should it
run. -/
def SV_DB_Get (gameversion : Option String) (r1 r2 : BackupResult) (s : State) : GetResult :=
  let ptr := if selectsEntranced gameversion then s.entrancedDbMemory else s.enhancedDbMemory
  if ptr ≠ s.lastLoaded then
    let s := if s.lastLoaded ≠ NULL then SV_DB_Save r1 r2 s else s
    let s := { s with lastLoaded := ptr }
    { changed := true, ptr := ptr, state := s }
  else
    let s := { s with lastLoaded := ptr }
    { changed := false, ptr := ptr, state := s }

/-! ## The client of a handle -/

/-- Modelled from the spec: "writing a value into the active memory mirror". The client
holds the handle `h` it got from `SV_DB_Get` and stores the row `(k, v)` in the in-memory
database behind it; a handle that is `NULL` or belongs to no in-memory database of this
subsystem stores nothing here. -/
def clientWrite (h : Ptr) (k v : Nat) (s : State) : State :=
  if h = NULL then s
  else if h = s.enhancedDbMemory then { s with enhancedMem := (k, v) :: s.enhancedMem }
  else if h = s.entrancedDbMemory then { s with entrancedMem := (k, v) :: s.entrancedMem }
  else s

/-- Modelled from the spec: "independently reading the corresponding disk store": the value
the newest row with key `k` holds. -/
def readStore (c : Content) (k : Nat) : Option Nat :=
  c.lookup k

/-- The file that backs a database. -/
def State.file (s : State) : DbFile → Content
  | .enhanced => s.enhancedFile
  | .entranced => s.entrancedFile

/-- The in-memory contents of a database. -/
def State.mem (s : State) : DbFile → Content
  | .enhanced => s.enhancedMem
  | .entranced => s.entrancedMem

/-- The disk handle of a database. -/
def State.diskHandle (s : State) : DbFile → Ptr
  | .enhanced => s.enhancedDbDisk
  | .entranced => s.entrancedDbDisk

/-- The memory handle of a database. -/
def State.memoryHandle (s : State) : DbFile → Ptr
  | .enhanced => s.enhancedDbMemory
  | .entranced => s.entrancedDbMemory

/-- The database a configuration value resolves to (lines 237 to 240). -/
def resolve (gameversion : Option String) : DbFile :=
  if selectsEntranced gameversion then .entranced else .enhanced

/-- One later call of `SV_DB_Get` or `SV_DB_Save`, or a write of the client, with the engine
answers that call receives. -/
inductive Call where
  | get (gameversion : Option String) (r1 r2 : BackupResult)
  | save (r1 r2 : BackupResult)
  | write (h : Ptr) (k v : Nat)

/-- The state after one call. -/
def Call.run : Call → State → State
  | .get gameversion r1 r2, s => (SV_DB_Get gameversion r1 r2 s).state
  | .save r1 r2, s => SV_DB_Save r1 r2 s
  | .write h k v, s => clientWrite h k v s

/-- The state after a sequence of calls, the first of the list first. -/
def runCalls (s : State) (calls : List Call) : State :=
  calls.foldl (fun st c => c.run st) s

/-- A backup whose three engine calls all succeed. -/
def okBackup : BackupResult := { backup := 1, stepRc := SQLITE_DONE, finishRc := SQLITE_OK }

/-- Whether an event is the line that starts the save of `f` (lines 184 and 208). -/
def isSaving (f : DbFile) : Event → Bool
  | .saving g => decide (g = f)
  | _ => false

/-- The number of times the log records the start of a save of `f`. -/
def savesOf (f : DbFile) (log : List Event) : Nat :=
  (log.filter (isSaving f)).length

/-- The engine answers `SV_DB_Save` uses for the backup of a database: its first argument
for enhanced, its second for entranced. -/
def backupFor (f : DbFile) (r1 r2 : BackupResult) : BackupResult :=
  match f with
  | .enhanced => r1
  | .entranced => r2

/-- The claim's words for line 237: the configuration string is present, "non-empty and
contains the marker "base_entranced" as a substring under case-insensitive comparison",
that is, some stretch of the string equals the marker once letters are folded to one case. -/
def containsMarkerNoCase (gameversion : Option String) : Prop :=
  ∃ str pre post, gameversion = some str ∧ str.toList ≠ [] ∧
    str.toList.map foldCase = pre ++ marker.toList.map foldCase ++ post

/-! ## Concrete engine behaviours used as inputs -/

/-- A backup the engine cannot even start: `sqlite3_backup_init` returns `NULL`. -/
def failedBackup : BackupResult := { backup := NULL, stepRc := 1, finishRc := 1 }

/-- Every engine call of `SV_DB_Init` succeeds; the four handles are 10, 20, 30 and 40. -/
def envAllOk : InitEnv :=
  { initRc := SQLITE_OK,
    openEnhancedDisk := { rc := SQLITE_OK, db := 10 },
    openEntrancedDisk := { rc := SQLITE_OK, db := 20 },
    openEnhancedMemory := { rc := SQLITE_OK, db := 30 },
    loadEnhanced := okBackup,
    openEntrancedMemory := { rc := SQLITE_OK, db := 40 },
    loadEntranced := okBackup,
    traceSQL := 0 }

/-- The engine fails to initialise (`sqlite3_initialize` answers `SQLITE_ERROR`, 1). -/
def envEngineDown : InitEnv := { envAllOk with initRc := 1 }

/-- The file `enhanced.db` cannot be opened: result code 7 (`SQLITE_NOMEM`) and no handle;
everything else succeeds. -/
def envEnhancedDiskFails : InitEnv :=
  { envAllOk with openEnhancedDisk := { rc := 7, db := NULL } }

/-- The file `enhanced.db` opens, but its copy into memory cannot be started; everything
about `entranced.db` would succeed. -/
def envEnhancedLoadFails : InitEnv := { envAllOk with loadEnhanced := failedBackup }

/-- The file `entranced.db` opens, but its copy into memory cannot be started; everything
about `enhanced.db` succeeds. -/
def envEntrancedLoadFails : InitEnv := { envAllOk with loadEntranced := failedBackup }

/-- The state in which a flush of entranced has failed: after a successful `SV_DB_Init`, the
client gets the handle of entranced, writes the row `(7, 99)` through it, and the next
call, with "base", switches to enhanced while the backup of entranced fails. -/
def afterFailedFlush : State :=
  (SV_DB_Get (some "base") okBackup failedBackup
    (clientWrite
      (SV_DB_Get (some "base_entranced") okBackup okBackup
        (SV_DB_Init envAllOk (boot [(1, 1)] [(2, 2)]))).ptr 7 99
      (SV_DB_Get (some "base_entranced") okBackup okBackup
        (SV_DB_Init envAllOk (boot [(1, 1)] [(2, 2)]))).state)).state

/-! ## What the calls leave alone -/

theorem save_enhancedDbDisk (r1 r2 : BackupResult) (s : State) :
    (SV_DB_Save r1 r2 s).enhancedDbDisk = s.enhancedDbDisk := by
  simp only [SV_DB_Save, State.emit]
  split_ifs <;> rfl

theorem save_enhancedDbMemory (r1 r2 : BackupResult) (s : State) :
    (SV_DB_Save r1 r2 s).enhancedDbMemory = s.enhancedDbMemory := by
  simp only [SV_DB_Save, State.emit]
  split_ifs <;> rfl

theorem save_entrancedDbDisk (r1 r2 : BackupResult) (s : State) :
    (SV_DB_Save r1 r2 s).entrancedDbDisk = s.entrancedDbDisk := by
  simp only [SV_DB_Save, State.emit]
  split_ifs <;> rfl

theorem save_entrancedDbMemory (r1 r2 : BackupResult) (s : State) :
    (SV_DB_Save r1 r2 s).entrancedDbMemory = s.entrancedDbMemory := by
  simp only [SV_DB_Save, State.emit]
  split_ifs <;> rfl

theorem save_lastLoaded (r1 r2 : BackupResult) (s : State) :
    (SV_DB_Save r1 r2 s).lastLoaded = s.lastLoaded := by
  simp only [SV_DB_Save, State.emit]
  split_ifs <;> rfl

theorem save_enhancedMem (r1 r2 : BackupResult) (s : State) :
    (SV_DB_Save r1 r2 s).enhancedMem = s.enhancedMem := by
  simp only [SV_DB_Save, State.emit]
  split_ifs <;> rfl

theorem save_entrancedMem (r1 r2 : BackupResult) (s : State) :
    (SV_DB_Save r1 r2 s).entrancedMem = s.entrancedMem := by
  simp only [SV_DB_Save, State.emit]
  split_ifs <;> rfl

/-- The handle `SV_DB_Get` writes through `ptr` is the memory handle of the database the
configuration value resolves to. -/
theorem get_ptr (gameversion : Option String) (r1 r2 : BackupResult) (s : State) :
    (SV_DB_Get gameversion r1 r2 s).ptr = s.memoryHandle (resolve gameversion) := by
  simp only [SV_DB_Get, resolve]
  split_ifs <;> rfl

/-- After `SV_DB_Get`, `lastLoaded` is the handle just returned. -/
theorem get_lastLoaded (gameversion : Option String) (r1 r2 : BackupResult) (s : State) :
    (SV_DB_Get gameversion r1 r2 s).state.lastLoaded = (SV_DB_Get gameversion r1 r2 s).ptr := by
  simp only [SV_DB_Get]
  split_ifs <;> rfl

/-- `SV_DB_Get` never changes a memory handle. -/
theorem get_memoryHandle (gameversion : Option String) (r1 r2 : BackupResult) (s : State)
    (f : DbFile) :
    (SV_DB_Get gameversion r1 r2 s).state.memoryHandle f = s.memoryHandle f := by
  cases f <;> simp only [SV_DB_Get, State.memoryHandle] <;> split_ifs <;>
    simp [save_enhancedDbMemory, save_entrancedDbMemory]

/-- `SV_DB_Get` never changes a disk handle. -/
theorem get_diskHandle (gameversion : Option String) (r1 r2 : BackupResult) (s : State)
    (f : DbFile) :
    (SV_DB_Get gameversion r1 r2 s).state.diskHandle f = s.diskHandle f := by
  cases f <;> simp only [SV_DB_Get, State.diskHandle] <;> split_ifs <;>
    simp [save_enhancedDbDisk, save_entrancedDbDisk]

theorem registerTrace_lastLoaded (env : InitEnv) (s : State) :
    (registerTrace env s).lastLoaded = s.lastLoaded := by
  simp only [registerTrace, State.emit]
  split_ifs <;> rfl

theorem loadEntrancedIntoMemory_lastLoaded (env : InitEnv) (s : State) :
    (loadEntrancedIntoMemory env s).lastLoaded = s.lastLoaded := by
  simp only [loadEntrancedIntoMemory, failEntranced, State.emit]
  split_ifs <;> simp [registerTrace_lastLoaded]

theorem loadEnhancedIntoMemory_lastLoaded (env : InitEnv) (s : State) :
    (loadEnhancedIntoMemory env s).lastLoaded = s.lastLoaded := by
  simp only [loadEnhancedIntoMemory, failEnhanced, State.emit]
  split_ifs <;> simp [loadEntrancedIntoMemory_lastLoaded]

/-- `SV_DB_Init` does not touch the static `lastLoaded` of `SV_DB_Get`. -/
theorem init_lastLoaded (env : InitEnv) (s : State) :
    (SV_DB_Init env s).lastLoaded = s.lastLoaded := by
  simp only [SV_DB_Init, State.emit]
  split_ifs <;> simp [loadEnhancedIntoMemory_lastLoaded]

/-- `SV_DB_Get` reports a change exactly when the handle it resolves differs from
`lastLoaded` (line 242). -/
theorem get_changed_iff (gameversion : Option String) (r1 r2 : BackupResult) (s : State) :
    (SV_DB_Get gameversion r1 r2 s).changed = true ↔
      s.memoryHandle (resolve gameversion) ≠ s.lastLoaded := by
  simp only [SV_DB_Get, resolve]
  by_cases a : selectsEntranced gameversion = true <;> simp only [a, State.memoryHandle] <;>
    split_ifs <;> simp_all

/-- When the resolved handle is `lastLoaded`, `SV_DB_Get` leaves the state as it is (lines
249 and 250). -/
theorem get_state_of_same (gameversion : Option String) (r1 r2 : BackupResult) (s : State)
    (h : s.memoryHandle (resolve gameversion) = s.lastLoaded) :
    (SV_DB_Get gameversion r1 r2 s).state = s := by
  obtain ⟨d1, m1, d2, m2, l, e1, e2, c1, c2, lg⟩ := s
  simp only [resolve] at h
  simp only [SV_DB_Get]
  by_cases a : selectsEntranced gameversion = true
  · simp only [a, State.memoryHandle, if_true] at h ⊢
    subst h
    simp
  · simp only [a, State.memoryHandle] at h ⊢
    simp only [Bool.false_eq_true, if_false] at h ⊢
    subst h
    simp

/-- The first call of `SV_DB_Get` after `SV_DB_Init` reports a change exactly when the handle
it returns is not `NULL`: the initial value of `lastLoaded` is the null pointer, which is
also the handle of a database that is not available. -/
theorem first_get_changed_iff (env : InitEnv) (f1 f2 : Content) (gameversion : Option String)
    (r1 r2 : BackupResult) :
    (SV_DB_Get gameversion r1 r2 (SV_DB_Init env (boot f1 f2))).changed = true ↔
      (SV_DB_Get gameversion r1 r2 (SV_DB_Init env (boot f1 f2))).ptr ≠ NULL := by
  have h : (SV_DB_Init env (boot f1 f2)).lastLoaded = NULL := by
    rw [init_lastLoaded]; rfl
  simp only [SV_DB_Get, h]
  split_ifs <;> simp_all

/-! ## The first call (C1) -/

/-- C1, evaluated on the code: when the engine fails to initialise, no handle exists after
`SV_DB_Init`, and the very first call of `SV_DB_Get`, here with the configuration value
"base", returns the null handle and `changed = false`, not `true`. -/
theorem first_get_unchanged_when_engine_down :
    (SV_DB_Get (some "base") okBackup okBackup
        (SV_DB_Init envEngineDown (boot [(1, 1)] [(2, 2)]))).changed = false ∧
    (SV_DB_Get (some "base") okBackup okBackup
        (SV_DB_Init envEngineDown (boot [(1, 1)] [(2, 2)]))).ptr = NULL := by
  decide

/-! ## Handles after a failed initialisation (C2) -/

/-- C2, evaluated on the code: `enhanced.db` cannot be opened (no disk handle) while
`entranced.db` can. Line 83 opens the in-memory database of enhanced all the same and
nothing clears it, so after `SV_DB_Init` the memory handle of enhanced is present without a
disk handle and without any copy, and `SV_DB_Get` with "base" returns that non-null handle. -/
theorem memory_handle_without_disk_handle :
    (SV_DB_Init envEnhancedDiskFails (boot [(1, 1)] [(2, 2)])).enhancedDbDisk = NULL ∧
    (SV_DB_Init envEnhancedDiskFails (boot [(1, 1)] [(2, 2)])).enhancedDbMemory = 30 ∧
    (SV_DB_Init envEnhancedDiskFails (boot [(1, 1)] [(2, 2)])).enhancedMem = [] ∧
    (SV_DB_Get (some "base") okBackup okBackup
        (SV_DB_Init envEnhancedDiskFails (boot [(1, 1)] [(2, 2)]))).ptr ≠ NULL := by
  decide

/-! ## Isolation of failures (C3) -/

/-- C3, evaluated on the code: `enhanced.db` opens but its copy into memory fails, and every
engine call for `entranced.db` would succeed. The failure branch of enhanced returns from
`SV_DB_Init` (line 109), so the in-memory database of entranced is never opened: entranced
ends with its disk handle present, its memory handle `NULL` and no mirror loaded. -/
theorem enhanced_failure_aborts_entranced :
    (SV_DB_Init envEnhancedLoadFails (boot [(1, 1)] [(2, 2)])).entrancedDbDisk = 20 ∧
    (SV_DB_Init envEnhancedLoadFails (boot [(1, 1)] [(2, 2)])).entrancedDbMemory = NULL ∧
    (SV_DB_Init envEnhancedLoadFails (boot [(1, 1)] [(2, 2)])).entrancedMem = [] ∧
    (SV_DB_Get (some "base_entranced") okBackup okBackup
        (SV_DB_Init envEnhancedLoadFails (boot [(1, 1)] [(2, 2)]))).ptr = NULL := by
  decide

/-- The trace registration changes nothing of enhanced. -/
theorem registerTrace_enhanced (env : InitEnv) (s : State) :
    (registerTrace env s).enhancedDbDisk = s.enhancedDbDisk ∧
    (registerTrace env s).enhancedDbMemory = s.enhancedDbMemory ∧
    (registerTrace env s).enhancedMem = s.enhancedMem := by
  simp only [registerTrace, State.emit]
  split_ifs <;> exact ⟨rfl, rfl, rfl⟩

/-- The entranced block of `SV_DB_Init`, whatever happens in it, changes nothing of
enhanced. -/
theorem loadEntrancedIntoMemory_enhanced (env : InitEnv) (s : State) :
    (loadEntrancedIntoMemory env s).enhancedDbDisk = s.enhancedDbDisk ∧
    (loadEntrancedIntoMemory env s).enhancedDbMemory = s.enhancedDbMemory ∧
    (loadEntrancedIntoMemory env s).enhancedMem = s.enhancedMem := by
  simp only [loadEntrancedIntoMemory, failEntranced, State.emit]
  split_ifs <;> first
    | exact ⟨rfl, rfl, rfl⟩
    | exact registerTrace_enhanced env _

/-- The enhanced block of `SV_DB_Init` (lines 82 to 118) when the disk handle is present
and every engine call of the block succeeds. -/
theorem loadEnhancedIntoMemory_ok (env : InitEnv) (s : State)
    (hdb : s.enhancedDbDisk ≠ NULL)
    (hmem : env.openEnhancedMemory.rc = SQLITE_OK)
    (hload : env.loadEnhanced.backup ≠ NULL ∧ env.loadEnhanced.stepRc = SQLITE_DONE ∧
      env.loadEnhanced.finishRc = SQLITE_OK) :
    (loadEnhancedIntoMemory env s).enhancedDbDisk = s.enhancedDbDisk ∧
    (loadEnhancedIntoMemory env s).enhancedDbMemory = env.openEnhancedMemory.db ∧
    (loadEnhancedIntoMemory env s).enhancedMem = s.enhancedFile := by
  obtain ⟨hb, hs, hf⟩ := hload
  simp only [loadEnhancedIntoMemory, State.emit, hdb, hmem, hb, hs, hf, ne_eq,
    not_false_eq_true, not_true_eq_false, if_true, if_false, BackupResult.copied, and_self]
  exact loadEntrancedIntoMemory_enhanced env _

/-- The other direction of the isolation holds on the code: when the file `enhanced.db`
opens and is copied into memory, enhanced ends `SV_DB_Init` with both handles and its mirror
loaded, whatever the engine answers for entranced. -/
theorem entranced_failure_keeps_enhanced (env : InitEnv) (f1 f2 : Content)
    (hinit : env.initRc = SQLITE_OK)
    (hrc : env.openEnhancedDisk.rc = SQLITE_OK) (hdb : env.openEnhancedDisk.db ≠ NULL)
    (hmem : env.openEnhancedMemory.rc = SQLITE_OK)
    (hload : env.loadEnhanced.backup ≠ NULL ∧ env.loadEnhanced.stepRc = SQLITE_DONE ∧
      env.loadEnhanced.finishRc = SQLITE_OK) :
    (SV_DB_Init env (boot f1 f2)).enhancedDbDisk = env.openEnhancedDisk.db ∧
    (SV_DB_Init env (boot f1 f2)).enhancedDbMemory = env.openEnhancedMemory.db ∧
    (SV_DB_Init env (boot f1 f2)).enhancedMem = f1 := by
  by_cases h2 : env.openEntrancedDisk.rc = SQLITE_OK
  · simp only [SV_DB_Init, hinit, hrc, h2, ne_eq, not_true_eq_false, if_false, if_true,
      Bool.not_true, Bool.false_eq_true, State.emit]
    exact loadEnhancedIntoMemory_ok env _ hdb hmem hload
  · simp only [SV_DB_Init, hinit, hrc, h2, ne_eq, not_true_eq_false, if_false, if_true,
      Bool.not_true, Bool.false_eq_true, State.emit]
    exact loadEnhancedIntoMemory_ok env _ hdb hmem hload

/-- A concrete instance: the copy of `entranced.db` fails after enhanced was loaded, and
enhanced keeps both handles and its loaded mirror. -/
theorem entranced_failure_keeps_enhanced_witness :
    (SV_DB_Init envEntrancedLoadFails (boot [(1, 1)] [(2, 2)])).enhancedDbDisk = 10 ∧
    (SV_DB_Init envEntrancedLoadFails (boot [(1, 1)] [(2, 2)])).enhancedDbMemory = 30 ∧
    (SV_DB_Init envEntrancedLoadFails (boot [(1, 1)] [(2, 2)])).enhancedMem = [(1, 1)] :=
  entranced_failure_keeps_enhanced envEntrancedLoadFails [(1, 1)] [(2, 2)]
    (by decide) (by decide) (by decide) (by decide) (by decide)

/-! ## Change detection (C4, C5) -/

/-- C4 as stated fails: with no handle at all (the engine failed to initialise), "base"
resolves to enhanced and "base_entranced" to entranced, yet the second of the two
consecutive calls returns `changed = false`, both memory handles being `NULL`. -/
theorem switch_unnoticed_when_both_null :
    resolve (some "base") ≠ resolve (some "base_entranced") ∧
    (SV_DB_Get (some "base_entranced") okBackup okBackup
      (SV_DB_Get (some "base") okBackup okBackup
        (SV_DB_Init envEngineDown (boot [(1, 1)] [(2, 2)]))).state).changed = false := by
  decide

/-- C4 amended: for two consecutive calls of `SV_DB_Get` whose configuration values resolve
to different databases, the second call returns `changed = true` exactly when the two
memory handles are different pointers (so whenever at least one database is available and
the engine gave distinct handles), and `changed = false` when they are equal. -/
theorem get_changed_on_switch (s : State) (c1 c2 : Option String)
    (r1 r2 r3 r4 : BackupResult) (hres : resolve c1 ≠ resolve c2) :
    (SV_DB_Get c2 r3 r4 (SV_DB_Get c1 r1 r2 s).state).changed = true ↔
      s.enhancedDbMemory ≠ s.entrancedDbMemory := by
  rw [get_changed_iff, get_lastLoaded, get_ptr, get_memoryHandle]
  cases a : resolve c1 <;> cases b : resolve c2 <;> simp_all [State.memoryHandle, eq_comm]

/-- A concrete instance of the change detection on a switch: after a successful
`SV_DB_Init`, "base" is followed by "base_entranced". -/
theorem get_changed_on_switch_witness :
    resolve (some "base") ≠ resolve (some "base_entranced") ∧
    ((SV_DB_Get (some "base_entranced") okBackup okBackup
      (SV_DB_Get (some "base") okBackup okBackup
        (SV_DB_Init envAllOk (boot [(1, 1)] [(2, 2)]))).state).changed = true ↔
      (SV_DB_Init envAllOk (boot [(1, 1)] [(2, 2)])).enhancedDbMemory ≠
        (SV_DB_Init envAllOk (boot [(1, 1)] [(2, 2)])).entrancedDbMemory) :=
  ⟨by decide,
    get_changed_on_switch (SV_DB_Init envAllOk (boot [(1, 1)] [(2, 2)]))
      (some "base") (some "base_entranced") okBackup okBackup okBackup okBackup (by decide)⟩

/-- C5: after `SV_DB_Init` and any sequence of calls, a call of `SV_DB_Get` with the same
configuration value as the call right before it returns `changed = false` and the same
handle, and leaves the whole state as that call left it: no line printed, no backup started,
no file and no handle changed. -/
theorem get_same_configuration_unchanged (env : InitEnv) (f1 f2 : Content)
    (calls : List Call) (c : Option String) (r1 r2 r3 r4 : BackupResult) :
    (SV_DB_Get c r3 r4
      (SV_DB_Get c r1 r2 (runCalls (SV_DB_Init env (boot f1 f2)) calls)).state).changed = false ∧
    (SV_DB_Get c r3 r4
      (SV_DB_Get c r1 r2 (runCalls (SV_DB_Init env (boot f1 f2)) calls)).state).ptr =
      (SV_DB_Get c r1 r2 (runCalls (SV_DB_Init env (boot f1 f2)) calls)).ptr ∧
    (SV_DB_Get c r3 r4
      (SV_DB_Get c r1 r2 (runCalls (SV_DB_Init env (boot f1 f2)) calls)).state).state =
      (SV_DB_Get c r1 r2 (runCalls (SV_DB_Init env (boot f1 f2)) calls)).state := by
  generalize runCalls (SV_DB_Init env (boot f1 f2)) calls = s
  have hsame : (SV_DB_Get c r1 r2 s).state.memoryHandle (resolve c) =
      (SV_DB_Get c r1 r2 s).state.lastLoaded := by
    rw [get_lastLoaded, get_ptr, get_memoryHandle]
  refine ⟨?_, ?_, get_state_of_same c r3 r4 _ hsame⟩
  · have h := get_changed_iff c r3 r4 (SV_DB_Get c r1 r2 s).state
    cases hc : (SV_DB_Get c r3 r4 (SV_DB_Get c r1 r2 s).state).changed
    · rfl
    · exact absurd hsame (h.mp hc)
  · rw [get_ptr, get_memoryHandle, get_ptr]

/-! ## What `SV_DB_Save` does to each database -/

/-- The file of a database after `SV_DB_Save`: the result of the backup when both handles
are present, untouched otherwise. -/
theorem save_file (r1 r2 : BackupResult) (s : State) (f : DbFile) :
    (SV_DB_Save r1 r2 s).file f =
      if s.memoryHandle f ≠ NULL ∧ s.diskHandle f ≠ NULL then
        (backupFor f r1 r2).copied (s.mem f) (s.file f)
      else s.file f := by
  by_cases h1 : s.enhancedDbMemory ≠ NULL ∧ s.enhancedDbDisk ≠ NULL <;>
  by_cases h2 : s.entrancedDbMemory ≠ NULL ∧ s.entrancedDbDisk ≠ NULL <;>
  cases f <;>
    simp only [SV_DB_Save, State.emit, State.file, State.mem, State.memoryHandle,
      State.diskHandle, backupFor, h1, h2, if_true, if_false, apply_ite State.entrancedDbMemory,
      apply_ite State.entrancedDbDisk, apply_ite State.enhancedFile,
      apply_ite State.entrancedFile, apply_ite State.entrancedMem, ite_self,
      not_false_eq_true, and_self]

/-- The in-memory contents of a database are not changed by `SV_DB_Save`. -/
theorem save_mem (r1 r2 : BackupResult) (s : State) (f : DbFile) :
    (SV_DB_Save r1 r2 s).mem f = s.mem f := by
  cases f <;> simp only [State.mem, save_enhancedMem, save_entrancedMem]

/-- `SV_DB_Save` starts the save of a database once when both its handles are present, and
not at all otherwise. -/
theorem save_savesOf (r1 r2 : BackupResult) (s : State) (f : DbFile) :
    savesOf f (SV_DB_Save r1 r2 s).log =
      savesOf f s.log + if s.memoryHandle f ≠ NULL ∧ s.diskHandle f ≠ NULL then 1 else 0 := by
  by_cases h1 : s.enhancedDbMemory ≠ NULL ∧ s.enhancedDbDisk ≠ NULL <;>
  by_cases h2 : s.entrancedDbMemory ≠ NULL ∧ s.entrancedDbDisk ≠ NULL <;>
  cases f <;>
    simp only [SV_DB_Save, State.emit, State.memoryHandle, State.diskHandle, savesOf,
      h1, h2, if_true, if_false, apply_ite State.entrancedDbMemory,
      apply_ite State.entrancedDbDisk, apply_ite State.log, ite_self,
      not_false_eq_true, and_self, apply_ite (List.filter _), apply_ite List.length,
      List.filter_append, List.filter_cons, List.filter_nil, isSaving, List.length_append,
      List.length_cons, List.length_nil, decide_True, decide_False, reduceCtorEq,
      Bool.false_eq_true, Nat.add_zero, Nat.zero_add] <;>
    (try split_ifs) <;> rfl

/-- On a switch with a previous handle, `SV_DB_Get` is `SV_DB_Save` followed by the update
of `lastLoaded` (lines 242 to 246). -/
theorem get_state_of_switch (gameversion : Option String) (r1 r2 : BackupResult) (s : State)
    (hsw : s.memoryHandle (resolve gameversion) ≠ s.lastLoaded) (hprev : s.lastLoaded ≠ NULL) :
    (SV_DB_Get gameversion r1 r2 s).state =
      { SV_DB_Save r1 r2 s with lastLoaded := s.memoryHandle (resolve gameversion) } := by
  simp only [resolve] at hsw ⊢
  simp only [SV_DB_Get]
  by_cases a : selectsEntranced gameversion = true
  · simp only [a, State.memoryHandle, if_true] at hsw ⊢
    simp [hsw, hprev]
  · simp only [a, State.memoryHandle] at hsw ⊢
    simp only [Bool.false_eq_true, if_false] at hsw ⊢
    simp [hsw, hprev]

/-- On a first-time switch (no previous handle), `SV_DB_Get` only updates `lastLoaded`. -/
theorem get_state_of_first (gameversion : Option String) (r1 r2 : BackupResult) (s : State)
    (hprev : s.lastLoaded = NULL) :
    (SV_DB_Get gameversion r1 r2 s).state =
      { s with lastLoaded := s.memoryHandle (resolve gameversion) } := by
  obtain ⟨d1, m1, d2, m2, l, e1, e2, c1, c2, lg⟩ := s
  simp only at hprev
  subst hprev
  simp only [resolve]
  simp only [SV_DB_Get]
  by_cases a : selectsEntranced gameversion = true
  · simp only [a, State.memoryHandle, if_true]
    split_ifs <;> simp_all
  · simp only [a, State.memoryHandle]
    simp only [Bool.false_eq_true, if_false]
    split_ifs <;> simp_all

/-! ## The flush on a switch (C6, C9) -/

/-- C6 as stated fails: `entranced.db` failed to load, so its memory handle is `NULL`. The
call with "base_entranced" is followed by a call with "base", which resolves to the other
database and returns `changed = true`, but `lastLoaded` is `NULL` and line 243 skips
`SV_DB_Save`: no save of the previous database is started and nothing is printed or
copied during that call. -/
theorem switch_from_null_saves_nothing :
    resolve (some "base_entranced") ≠ resolve (some "base") ∧
    (SV_DB_Get (some "base") okBackup okBackup
      (SV_DB_Get (some "base_entranced") okBackup okBackup
        (SV_DB_Init envEntrancedLoadFails (boot [(1, 1)] [(2, 2)]))).state).changed = true ∧
    savesOf (resolve (some "base_entranced"))
      (SV_DB_Get (some "base") okBackup okBackup
        (SV_DB_Get (some "base_entranced") okBackup okBackup
          (SV_DB_Init envEntrancedLoadFails (boot [(1, 1)] [(2, 2)]))).state).state.log =
    savesOf (resolve (some "base_entranced"))
      (SV_DB_Get (some "base_entranced") okBackup okBackup
        (SV_DB_Init envEntrancedLoadFails (boot [(1, 1)] [(2, 2)]))).state.log ∧
    (SV_DB_Get (some "base") okBackup okBackup
      (SV_DB_Get (some "base_entranced") okBackup okBackup
        (SV_DB_Init envEntrancedLoadFails (boot [(1, 1)] [(2, 2)]))).state).state.log =
    (SV_DB_Get (some "base_entranced") okBackup okBackup
      (SV_DB_Init envEntrancedLoadFails (boot [(1, 1)] [(2, 2)]))).state.log := by
  decide

/-- C6 amended: for two consecutive calls of `SV_DB_Get` whose configuration values resolve
to different databases, if the database of the previous call has both its memory handle and
its disk handle and the two memory handles are different pointers, then the current call
returns `changed = true`, starts the save of the previous database exactly once, leaves the
file of the previous database as that one backup leaves it (equal to its mirror when the
backup succeeds) and does not change the mirror. -/
theorem switch_saves_previous_once (s : State) (c1 c2 : Option String)
    (r1 r2 r3 r4 : BackupResult)
    (hres : resolve c1 ≠ resolve c2)
    (hdist : s.enhancedDbMemory ≠ s.entrancedDbMemory)
    (hmem : s.memoryHandle (resolve c1) ≠ NULL)
    (hdisk : s.diskHandle (resolve c1) ≠ NULL) :
    (SV_DB_Get c2 r3 r4 (SV_DB_Get c1 r1 r2 s).state).changed = true ∧
    savesOf (resolve c1) (SV_DB_Get c2 r3 r4 (SV_DB_Get c1 r1 r2 s).state).state.log =
      savesOf (resolve c1) (SV_DB_Get c1 r1 r2 s).state.log + 1 ∧
    (SV_DB_Get c2 r3 r4 (SV_DB_Get c1 r1 r2 s).state).state.file (resolve c1) =
      (backupFor (resolve c1) r3 r4).copied
        ((SV_DB_Get c1 r1 r2 s).state.mem (resolve c1))
        ((SV_DB_Get c1 r1 r2 s).state.file (resolve c1)) ∧
    (SV_DB_Get c2 r3 r4 (SV_DB_Get c1 r1 r2 s).state).state.mem (resolve c1) =
      (SV_DB_Get c1 r1 r2 s).state.mem (resolve c1) := by
  have hl : (SV_DB_Get c1 r1 r2 s).state.lastLoaded = s.memoryHandle (resolve c1) := by
    rw [get_lastLoaded, get_ptr]
  have hm := get_memoryHandle c1 r1 r2 s
  have hd := get_diskHandle c1 r1 r2 s
  generalize (SV_DB_Get c1 r1 r2 s).state = t at hl hm hd ⊢
  have hsw : t.memoryHandle (resolve c2) ≠ t.lastLoaded := by
    rw [hl, hm]
    cases a : resolve c1 <;> cases b : resolve c2 <;>
      simp_all [State.memoryHandle, eq_comm]
  have hprev : t.lastLoaded ≠ NULL := by rw [hl]; exact hmem
  have hboth : t.memoryHandle (resolve c1) ≠ NULL ∧ t.diskHandle (resolve c1) ≠ NULL := by
    rw [hm, hd]; exact ⟨hmem, hdisk⟩
  refine ⟨(get_changed_iff c2 r3 r4 t).mpr hsw, ?_, ?_, ?_⟩
  · rw [get_state_of_switch c2 r3 r4 t hsw hprev]
    have h := save_savesOf r3 r4 t (resolve c1)
    rw [if_pos hboth] at h
    exact h
  · rw [get_state_of_switch c2 r3 r4 t hsw hprev]
    have h := save_file r3 r4 t (resolve c1)
    rw [if_pos hboth] at h
    cases a : resolve c1 <;> rw [a] at h <;> exact h
  · rw [get_state_of_switch c2 r3 r4 t hsw hprev]
    have h := save_mem r3 r4 t (resolve c1)
    cases a : resolve c1 <;> rw [a] at h <;> exact h

/-- A concrete instance of the flush on a switch: after a successful `SV_DB_Init`, "base"
is followed by "base_entranced", and enhanced is saved once. -/
theorem switch_saves_previous_once_witness :
    (resolve (some "base") ≠ resolve (some "base_entranced") ∧
      (SV_DB_Init envAllOk (boot [(1, 1)] [(2, 2)])).enhancedDbMemory ≠
        (SV_DB_Init envAllOk (boot [(1, 1)] [(2, 2)])).entrancedDbMemory ∧
      (SV_DB_Init envAllOk (boot [(1, 1)] [(2, 2)])).memoryHandle (resolve (some "base")) ≠
        NULL ∧
      (SV_DB_Init envAllOk (boot [(1, 1)] [(2, 2)])).diskHandle (resolve (some "base")) ≠
        NULL) ∧
    savesOf (resolve (some "base"))
      (SV_DB_Get (some "base_entranced") okBackup okBackup
        (SV_DB_Get (some "base") okBackup okBackup
          (SV_DB_Init envAllOk (boot [(1, 1)] [(2, 2)]))).state).state.log =
    savesOf (resolve (some "base"))
      (SV_DB_Get (some "base") okBackup okBackup
        (SV_DB_Init envAllOk (boot [(1, 1)] [(2, 2)]))).state.log + 1 :=
  ⟨by decide,
    (switch_saves_previous_once (SV_DB_Init envAllOk (boot [(1, 1)] [(2, 2)]))
      (some "base") (some "base_entranced") okBackup okBackup okBackup okBackup
      (by decide) (by decide) (by decide) (by decide)).2.1⟩

/-- C9 as stated fails: in `afterFailedFlush` the previous handle is the non-null memory
handle of enhanced. The call with "base_entranced" detects the switch and runs
`SV_DB_Save`, which takes no argument and saves every loaded database: a save of
entranced, the newly selected database, is started too, and the file `entranced.db`
changes (the row `(7, 99)` appears in it). -/
theorem switch_also_saves_selected :
    afterFailedFlush.lastLoaded = afterFailedFlush.enhancedDbMemory ∧
    afterFailedFlush.lastLoaded ≠ NULL ∧
    resolve (some "base_entranced") = DbFile.entranced ∧
    (SV_DB_Get (some "base_entranced") okBackup okBackup afterFailedFlush).changed = true ∧
    readStore afterFailedFlush.entrancedFile 7 = none ∧
    readStore
      (SV_DB_Get (some "base_entranced") okBackup okBackup afterFailedFlush).state.entrancedFile
      7 = some 99 ∧
    savesOf DbFile.entranced
      (SV_DB_Get (some "base_entranced") okBackup okBackup afterFailedFlush).state.log =
      savesOf DbFile.entranced afterFailedFlush.log + 1 := by
  decide

/-- C9 amended: when `SV_DB_Get` detects a switch and the previous handle was non-null, it
saves every database: for each of the two, the newly selected one included, the save is
started once and the file becomes what the backup leaves when both handles of that database
are present, and the file is unchanged and no save is started when a handle is missing; no
mirror and no handle is changed by the call. -/
theorem switch_saves_every_loaded (s : State) (gameversion : Option String)
    (r1 r2 : BackupResult) (f : DbFile)
    (hsw : s.memoryHandle (resolve gameversion) ≠ s.lastLoaded)
    (hprev : s.lastLoaded ≠ NULL) :
    (SV_DB_Get gameversion r1 r2 s).state.file f =
      (if s.memoryHandle f ≠ NULL ∧ s.diskHandle f ≠ NULL then
        (backupFor f r1 r2).copied (s.mem f) (s.file f)
      else s.file f) ∧
    savesOf f (SV_DB_Get gameversion r1 r2 s).state.log =
      savesOf f s.log + (if s.memoryHandle f ≠ NULL ∧ s.diskHandle f ≠ NULL then 1 else 0) ∧
    (SV_DB_Get gameversion r1 r2 s).state.mem f = s.mem f ∧
    (SV_DB_Get gameversion r1 r2 s).state.memoryHandle f = s.memoryHandle f ∧
    (SV_DB_Get gameversion r1 r2 s).state.diskHandle f = s.diskHandle f := by
  refine ⟨?_, ?_, ?_, get_memoryHandle _ _ _ _ _, get_diskHandle _ _ _ _ _⟩
  · rw [get_state_of_switch gameversion r1 r2 s hsw hprev, ← save_file]
    cases f <;> rfl
  · rw [get_state_of_switch gameversion r1 r2 s hsw hprev, ← save_savesOf]
  · rw [get_state_of_switch gameversion r1 r2 s hsw hprev, ← save_mem r1 r2 s f]
    cases f <;> rfl

/-- A concrete instance of the save of every loaded database: the switch back to
entranced in `afterFailedFlush` starts a save of entranced. -/
theorem switch_saves_every_loaded_witness :
    (afterFailedFlush.memoryHandle (resolve (some "base_entranced")) ≠
        afterFailedFlush.lastLoaded ∧
      afterFailedFlush.lastLoaded ≠ NULL) ∧
    savesOf DbFile.entranced
      (SV_DB_Get (some "base_entranced") okBackup okBackup afterFailedFlush).state.log =
    savesOf DbFile.entranced afterFailedFlush.log +
      (if afterFailedFlush.memoryHandle DbFile.entranced ≠ NULL ∧
          afterFailedFlush.diskHandle DbFile.entranced ≠ NULL then 1 else 0) :=
  ⟨by decide,
    (switch_saves_every_loaded afterFailedFlush (some "base_entranced") okBackup okBackup
      DbFile.entranced (by decide) (by decide)).2.1⟩

/-! ## Round trip through `SV_DB_Save` (C8) -/

/-- For a database with both handles present, a row written through its memory handle is
in its file after a `SV_DB_Save` whose backup succeeds, and the file then equals the
mirror. -/
theorem save_round_trip (s : State) (f : DbFile) (k v : Nat) (r1 r2 : BackupResult)
    (hdist : s.enhancedDbMemory ≠ s.entrancedDbMemory)
    (hmem : s.memoryHandle f ≠ NULL) (hdisk : s.diskHandle f ≠ NULL)
    (hok : (backupFor f r1 r2).backup ≠ NULL ∧ (backupFor f r1 r2).stepRc = SQLITE_DONE ∧
      (backupFor f r1 r2).finishRc = SQLITE_OK) :
    readStore ((SV_DB_Save r1 r2 (clientWrite (s.memoryHandle f) k v s)).file f) k = some v ∧
    (SV_DB_Save r1 r2 (clientWrite (s.memoryHandle f) k v s)).file f =
      (SV_DB_Save r1 r2 (clientWrite (s.memoryHandle f) k v s)).mem f := by
  have hw : (clientWrite (s.memoryHandle f) k v s).mem f = (k, v) :: s.mem f ∧
      (clientWrite (s.memoryHandle f) k v s).memoryHandle f = s.memoryHandle f ∧
      (clientWrite (s.memoryHandle f) k v s).diskHandle f = s.diskHandle f := by
    cases f <;> simp only [State.memoryHandle, State.diskHandle, State.mem] at hmem hdisk ⊢ <;>
      simp only [clientWrite] <;> split_ifs <;> simp_all
  obtain ⟨hw1, hw2, hw3⟩ := hw
  rw [save_file, save_mem, hw1, hw2, hw3, if_pos ⟨hmem, hdisk⟩, BackupResult.copied, if_pos hok]
  simp [readStore, List.lookup]

/-- C8, evaluated on the code: `enhanced.db` could not be opened, yet `SV_DB_Get` with
"base" returns the non-null memory handle of enhanced (line 83 opened it). The client
writes the row `(7, 99)` through it and calls `SV_DB_Save`, every backup succeeding. Line
182 skips enhanced because its disk handle is `NULL`: the row is in the mirror but not in
the file, and the file differs from the mirror. -/
theorem write_lost_without_disk_handle :
    (SV_DB_Get (some "base") okBackup okBackup
      (SV_DB_Init envEnhancedDiskFails (boot [(1, 1)] [(2, 2)]))).ptr ≠ NULL ∧
    readStore
      (SV_DB_Save okBackup okBackup
        (clientWrite
          (SV_DB_Get (some "base") okBackup okBackup
            (SV_DB_Init envEnhancedDiskFails (boot [(1, 1)] [(2, 2)]))).ptr 7 99
          (SV_DB_Get (some "base") okBackup okBackup
            (SV_DB_Init envEnhancedDiskFails (boot [(1, 1)] [(2, 2)]))).state)).enhancedMem
      7 = some 99 ∧
    readStore
      (SV_DB_Save okBackup okBackup
        (clientWrite
          (SV_DB_Get (some "base") okBackup okBackup
            (SV_DB_Init envEnhancedDiskFails (boot [(1, 1)] [(2, 2)]))).ptr 7 99
          (SV_DB_Get (some "base") okBackup okBackup
            (SV_DB_Init envEnhancedDiskFails (boot [(1, 1)] [(2, 2)]))).state)).enhancedFile
      7 = none ∧
    savesOf DbFile.enhanced
      (SV_DB_Save okBackup okBackup
        (clientWrite
          (SV_DB_Get (some "base") okBackup okBackup
            (SV_DB_Init envEnhancedDiskFails (boot [(1, 1)] [(2, 2)]))).ptr 7 99
          (SV_DB_Get (some "base") okBackup okBackup
            (SV_DB_Init envEnhancedDiskFails (boot [(1, 1)] [(2, 2)]))).state)).log = 0 := by
  decide

/-! ## The printed duration (C10) -/

/-- C10 as stated fails: for the 64-bit value `ns = 4294967296000000` (2^32 milliseconds)
`TraceCallback` prints 0, whereas `ns / 1000000` is 4294967296: line 42 stores the quotient
in an `unsigned int`. -/
theorem profile_ms_wraps :
    (4294967296000000 : Nat) < 2 ^ 64 ∧
    TraceCallback 1 SQLITE_TRACE_PROFILE 1 1 "" "" 4294967296000000 =
      [TraceLine.executedIn 0] ∧
    (4294967296000000 : Nat) / 1000000 = 4294967296 := by
  refine ⟨by norm_num, ?_, by norm_num⟩
  simp [TraceCallback, NULL, SQLITE_TRACE_PROFILE, SQLITE_TRACE_STMT]

/-- C10 amended: for every 64-bit unsigned elapsed time `ns` delivered in a profile event
(with a statement and an info pointer present and tracing enabled), `TraceCallback` prints
`ns / 1000000` reduced modulo 2^32, and this is the whole number of milliseconds
`ns / 1000000` exactly when `ns < 2^32 * 1000000`. -/
theorem profile_ms (traceSQL : Int) (ptr info : Ptr) (sql expanded : String) (ns : Nat)
    (hptr : ptr ≠ NULL) (hinfo : info ≠ NULL) (htrace : traceSQL ≠ 0) (hns : ns < 2 ^ 64) :
    TraceCallback traceSQL SQLITE_TRACE_PROFILE ptr info sql expanded ns =
      [TraceLine.executedIn (ns / 1000000 % 2 ^ 32)] ∧
    (ns / 1000000 % 2 ^ 32 = ns / 1000000 ↔ ns < 2 ^ 32 * 1000000) := by
  constructor
  · have h : ns % 18446744073709551616 = ns := Nat.mod_eq_of_lt (by norm_num at hns; exact hns)
    simp [TraceCallback, hptr, hinfo, htrace, SQLITE_TRACE_PROFILE, SQLITE_TRACE_STMT, h]
  · constructor
    · intro h
      have h2 : ns / 1000000 < 2 ^ 32 := by
        rw [← h]; exact Nat.mod_lt _ (by norm_num)
      omega
    · intro h
      apply Nat.mod_eq_of_lt
      omega

/-- A concrete instance of the printed duration: 1.5 milliseconds are printed as 1. -/
theorem profile_ms_witness :
    ((1 : Ptr) ≠ NULL ∧ (2 : Ptr) ≠ NULL ∧ (1 : Int) ≠ 0 ∧ (1500000 : Nat) < 2 ^ 64) ∧
    (TraceCallback 1 SQLITE_TRACE_PROFILE 1 2 "" "" 1500000 =
      [TraceLine.executedIn (1500000 / 1000000 % 2 ^ 32)] ∧
    (1500000 / 1000000 % 2 ^ 32 = 1500000 / 1000000 ↔ 1500000 < 2 ^ 32 * 1000000)) :=
  ⟨⟨by decide, by decide, by decide, by norm_num⟩,
    profile_ms 1 1 2 "" "" 1500000 (by decide) (by decide) (by decide) (by norm_num)⟩

/-! ## The configuration test of line 237 (C7) -/

/-- The test at the start of a string agrees with its description on folded strings. -/
theorem startsWithNoCase_iff (s find : List Char) :
    startsWithNoCase s find = true ↔ ∃ post, s.map foldCase = find.map foldCase ++ post := by
  induction find generalizing s with
  | nil => cases s <;> simp [startsWithNoCase]
  | cons f fs ih =>
    cases s with
    | nil => simp [startsWithNoCase]
    | cons c cs =>
      simp only [startsWithNoCase, Bool.and_eq_true, beq_iff_eq, ih, List.map_cons,
        List.cons_append, List.cons.injEq]
      constructor
      · rintro ⟨h, post, hp⟩
        exact ⟨post, h, hp⟩
      · rintro ⟨post, h, hp⟩
        exact ⟨h, post, hp⟩

/-- Shifting the offset of an occurrence does not change whether there is one. -/
theorem isSome_shift (o : Option Nat) : (o.map (· + 1)).isSome = o.isSome := by
  cases o <;> rfl

/-- The search finds an occurrence exactly when the folded marker is a stretch of the folded
string. -/
theorem Q_stristr_isSome_iff (s find : List Char) :
    (Q_stristr s find).isSome = true ↔
      ∃ pre post, s.map foldCase = pre ++ find.map foldCase ++ post := by
  induction s with
  | nil =>
    simp only [Q_stristr]
    constructor
    · intro h
      split_ifs at h with hs
      · obtain ⟨post, hp⟩ := (startsWithNoCase_iff [] find).mp hs
        exact ⟨[], post, by simpa using hp⟩
      · simp at h
    · rintro ⟨pre, post, hp⟩
      have hs : startsWithNoCase [] find = true := by
        rw [startsWithNoCase_iff]
        simp only [List.map_nil] at hp
        have h1 := congrArg List.length hp
        simp only [List.length_nil, List.length_append, List.length_map] at h1
        have hf : find = [] := List.length_eq_zero.mp (by omega)
        subst hf
        exact ⟨[], rfl⟩
      simp [hs]
  | cons c cs ih =>
    simp only [Q_stristr]
    constructor
    · intro h
      split_ifs at h with hs
      · obtain ⟨post, hp⟩ := (startsWithNoCase_iff (c :: cs) find).mp hs
        exact ⟨[], post, by simpa using hp⟩
      · rw [isSome_shift] at h
        obtain ⟨pre, post, hp⟩ := ih.mp h
        refine ⟨foldCase c :: pre, post, ?_⟩
        simp [hp]
    · rintro ⟨pre, post, hp⟩
      split_ifs with hs
      · rfl
      · rw [isSome_shift]
        apply ih.mpr
        cases pre with
        | nil =>
          exact absurd ((startsWithNoCase_iff (c :: cs) find).mpr ⟨post, by simpa using hp⟩) hs
        | cons x pre =>
          refine ⟨pre, post, ?_⟩
          simp only [List.map_cons, List.cons_append, List.cons.injEq] at hp
          exact hp.2

/-- The condition of line 237 holds exactly for the strings the claim describes. -/
theorem selectsEntranced_iff (gameversion : Option String) :
    selectsEntranced gameversion = true ↔ containsMarkerNoCase gameversion := by
  cases gameversion with
  | none => simp [selectsEntranced, VALIDSTRING, containsMarkerNoCase]
  | some str =>
    simp only [selectsEntranced, VALIDSTRING, containsMarkerNoCase, Bool.and_eq_true,
      Q_stristr_isSome_iff, Bool.not_eq_true', List.isEmpty_eq_false, Option.some.injEq]
    constructor
    · rintro ⟨hne, pre, post, hp⟩
      exact ⟨str, pre, post, rfl, hne, hp⟩
    · rintro ⟨str2, pre, post, rfl, hne, hp⟩
      exact ⟨hne, pre, post, hp⟩

/-- C7: the configuration value resolves to entranced exactly when it is a non-empty string
that contains "base_entranced" as a substring under case-insensitive comparison, and to
enhanced for every other value, an absent or empty string included; `SV_DB_Get` returns the
memory handle of entranced in the first case and that of enhanced in the second. -/
theorem get_resolves_by_marker (gameversion : Option String) (r1 r2 : BackupResult)
    (s : State) :
    (resolve gameversion = DbFile.entranced ↔ containsMarkerNoCase gameversion) ∧
    (resolve gameversion = DbFile.enhanced ↔ ¬ containsMarkerNoCase gameversion) ∧
    (SV_DB_Get gameversion r1 r2 s).ptr =
      (match resolve gameversion with
       | DbFile.entranced => s.entrancedDbMemory
       | DbFile.enhanced => s.enhancedDbMemory) ∧
    resolve none = DbFile.enhanced ∧ resolve (some "") = DbFile.enhanced := by
  have h := selectsEntranced_iff gameversion
  refine ⟨?_, ?_, ?_, by decide, by decide⟩
  · rw [← h]; simp [resolve]
  · rw [← h]; simp [resolve]
  · rw [get_ptr]
    cases resolve gameversion <;> rfl

end SvDatabase
